import Mathlib

/-!
Verification of `homebridge-airthings` (`src/plugin.ts`).

The plugin exposes an Airthings air-quality monitor to HomeKit.  The logic
embedded here covers:
  * the air-quality classification computed by the `AirQuality` `onGet`
    callback (threshold tables per factor, worst-case aggregation);
  * the VOC density formula of the `VOC Density` `onGet` callback;
  * the `StatusActive` freshness checks;
  * the per-characteristic default values;
  * the TTL-guarded refresh cache `getLatestSamples` (modelled as a pure
    state-transition function over the cache state, with the external fetch
    result and the clock passed in explicitly);
  * the constructor's handling of a missing serial number.

Numbers are modelled as rationals (JavaScript numbers in the source);
clock values for the cache are integer milliseconds (`Date.now()`).
-/

namespace Airthings

/-- Numeric values of the HomeKit `Characteristic.AirQuality` enum, as used
by the plugin via `api.hap.Characteristic.AirQuality`. -/
def AQ_UNKNOWN : ℕ := 0

/-- HomeKit `AirQuality.EXCELLENT`. -/
def AQ_EXCELLENT : ℕ := 1

/-- HomeKit `AirQuality.GOOD`. -/
def AQ_GOOD : ℕ := 2

/-- HomeKit `AirQuality.FAIR`. -/
def AQ_FAIR : ℕ := 3

/-- HomeKit `AirQuality.INFERIOR`. -/
def AQ_INFERIOR : ℕ := 4

/-- HomeKit `AirQuality.POOR`. -/
def AQ_POOR : ℕ := 5

/-- HomeKit `StatusLowBattery.BATTERY_LEVEL_NORMAL`. -/
def BATTERY_LEVEL_NORMAL : ℕ := 0

/-- HomeKit `StatusLowBattery.BATTERY_LEVEL_LOW`. -/
def BATTERY_LEVEL_LOW : ℕ := 1

/-- HomeKit `CarbonDioxideDetected.CO2_LEVELS_NORMAL`. -/
def CO2_LEVELS_NORMAL : ℕ := 0

/-- HomeKit `CarbonDioxideDetected.CO2_LEVELS_ABNORMAL`. -/
def CO2_LEVELS_ABNORMAL : ℕ := 1

/-- The `data` part of `AirthingsApiDeviceSample`: every sensor field is
optional (absent when the device lacks the sensor or the reading is
unavailable). -/
structure SampleData where
  battery : Option ℚ := none
  humidity : Option ℚ := none
  co2 : Option ℚ := none
  pm25 : Option ℚ := none
  mold : Option ℚ := none
  radonShortTermAvg : Option ℚ := none
  voc : Option ℚ := none
  temp : Option ℚ := none
  pressure : Option ℚ := none
  time : Option ℚ := none
deriving Repr, DecidableEq

/-- The initial sample `{ data: {} }` held before any successful fetch. -/
def emptyData : SampleData := {}

/-- Humidity block of the `AirQuality` `onGet` callback (`plugin.ts`
lines 89-100): when humidity is present the running value is assigned
(not maxed) from the double-sided band. -/
def humidityAQ (d : SampleData) (aq : ℕ) : ℕ :=
  match d.humidity with
  | none => aq
  | some humidity =>
    if humidity < 25 ∨ 70 ≤ humidity then AQ_POOR
    else if humidity < 30 ∨ 60 ≤ humidity then AQ_FAIR
    else AQ_EXCELLENT

/-- CO2 block (`plugin.ts` lines 102-113): `Math.max` with the level from
the co2 threshold table. -/
def co2AQ (d : SampleData) (aq : ℕ) : ℕ :=
  match d.co2 with
  | none => aq
  | some co2 =>
    if 1000 ≤ co2 then max aq AQ_POOR
    else if 800 ≤ co2 then max aq AQ_FAIR
    else max aq AQ_EXCELLENT

/-- Mold block (`plugin.ts` lines 115-126). -/
def moldAQ (d : SampleData) (aq : ℕ) : ℕ :=
  match d.mold with
  | none => aq
  | some mold =>
    if 5 ≤ mold then max aq AQ_POOR
    else if 3 ≤ mold then max aq AQ_FAIR
    else max aq AQ_EXCELLENT

/-- PM2.5 block (`plugin.ts` lines 128-139). -/
def pm25AQ (d : SampleData) (aq : ℕ) : ℕ :=
  match d.pm25 with
  | none => aq
  | some pm25 =>
    if 25 ≤ pm25 then max aq AQ_POOR
    else if 10 ≤ pm25 then max aq AQ_FAIR
    else max aq AQ_EXCELLENT

/-- Radon block (`plugin.ts` lines 141-152). -/
def radonAQ (d : SampleData) (aq : ℕ) : ℕ :=
  match d.radonShortTermAvg with
  | none => aq
  | some radonShortTermAvg =>
    if 150 ≤ radonShortTermAvg then max aq AQ_POOR
    else if 100 ≤ radonShortTermAvg then max aq AQ_FAIR
    else max aq AQ_EXCELLENT

/-- VOC block (`plugin.ts` lines 154-165). -/
def vocAQ (d : SampleData) (aq : ℕ) : ℕ :=
  match d.voc with
  | none => aq
  | some voc =>
    if 2000 ≤ voc then max aq AQ_POOR
    else if 250 ≤ voc then max aq AQ_FAIR
    else max aq AQ_EXCELLENT

/-- The whole `AirQuality` `onGet` computation (`plugin.ts` lines 83-168):
start at `UNKNOWN`, run the six factor blocks in source order. -/
def classify (d : SampleData) : ℕ :=
  vocAQ d (radonAQ d (pm25AQ d (moldAQ d (co2AQ d (humidityAQ d AQ_UNKNOWN)))))

/-- Per-factor level of the humidity band, as the spec's threshold table
words it: POOR if humidity < 25 or ≥ 70, else FAIR if < 30 or ≥ 60,
else EXCELLENT. -/
def humidityLevel (h : ℚ) : ℕ :=
  if h < 25 ∨ 70 ≤ h then AQ_POOR
  else if h < 30 ∨ 60 ≤ h then AQ_FAIR
  else AQ_EXCELLENT

/-- Per-factor level for co2: POOR if ≥ 1000, FAIR if ≥ 800, else
EXCELLENT. -/
def co2Level (c : ℚ) : ℕ :=
  if 1000 ≤ c then AQ_POOR else if 800 ≤ c then AQ_FAIR else AQ_EXCELLENT

/-- Per-factor level for mold: POOR if ≥ 5, FAIR if ≥ 3, else EXCELLENT. -/
def moldLevel (m : ℚ) : ℕ :=
  if 5 ≤ m then AQ_POOR else if 3 ≤ m then AQ_FAIR else AQ_EXCELLENT

/-- Per-factor level for pm25: POOR if ≥ 25, FAIR if ≥ 10, else
EXCELLENT. -/
def pm25Level (p : ℚ) : ℕ :=
  if 25 ≤ p then AQ_POOR else if 10 ≤ p then AQ_FAIR else AQ_EXCELLENT

/-- Per-factor level for radonShortTermAvg: POOR if ≥ 150, FAIR if ≥ 100,
else EXCELLENT. -/
def radonLevel (r : ℚ) : ℕ :=
  if 150 ≤ r then AQ_POOR else if 100 ≤ r then AQ_FAIR else AQ_EXCELLENT

/-- Per-factor level for voc: POOR if ≥ 2000, FAIR if ≥ 250, else
EXCELLENT. -/
def vocLevel (v : ℚ) : ℕ :=
  if 2000 ≤ v then AQ_POOR else if 250 ≤ v then AQ_FAIR else AQ_EXCELLENT

/-- Contribution of one optional factor to the maximum: an absent factor
contributes `UNKNOWN` (the floor of the severity order), a present one its
per-factor level. -/
def factorContrib (o : Option ℚ) (f : ℚ → ℕ) : ℕ :=
  match o with
  | none => AQ_UNKNOWN
  | some v => f v

/-- Specification-side classification: the pure maximum of the per-factor
levels over all present factors, `UNKNOWN` when no factor is present.
Written from the spec's words, to be compared with `classify`. -/
def classifySpec (d : SampleData) : ℕ :=
  max (factorContrib d.humidity humidityLevel)
    (max (factorContrib d.co2 co2Level)
      (max (factorContrib d.mold moldLevel)
        (max (factorContrib d.pm25 pm25Level)
          (max (factorContrib d.radonShortTermAvg radonLevel)
            (factorContrib d.voc vocLevel)))))

/-- The six classification factors, for stating per-factor monotonicity. -/
inductive Factor where
  | humidity
  | co2
  | mold
  | pm25
  | radon
  | voc
deriving Repr, DecidableEq

/-- Replace one factor's value in a sample. -/
def setFactor (d : SampleData) : Factor → ℚ → SampleData
  | .humidity, v => { d with humidity := some v }
  | .co2, v => { d with co2 := some v }
  | .mold, v => { d with mold := some v }
  | .pm25, v => { d with pm25 := some v }
  | .radon, v => { d with radonShortTermAvg := some v }
  | .voc, v => { d with voc := some v }

/-- The per-factor level function of each factor's threshold table. -/
def factorLevel : Factor → ℚ → ℕ
  | .humidity => humidityLevel
  | .co2 => co2Level
  | .mold => moldLevel
  | .pm25 => pm25Level
  | .radon => radonLevel
  | .voc => vocLevel

/-- The `VOC Density` `onGet` computation (`plugin.ts` lines 218-223):
`temp ?? 25`, `pressure ?? 1013`, then
`voc != null ? voc * (78 / (22.41 * ((temp + 273) / 273) * (1013 / pressure))) : 0`. -/
def vocDensity (d : SampleData) : ℚ :=
  let temp := d.temp.getD 25
  let pressure := d.pressure.getD 1013
  match d.voc with
  | some voc => voc * (78 / (22.41 * ((temp + 273) / 273) * (1013 / pressure)))
  | none => 0

/-- The `CurrentTemperature` `onGet` value (`plugin.ts` line 240):
`temp ?? null`, modelled as the option itself (`none` is the null
sentinel). -/
def temperatureGet (d : SampleData) : Option ℚ :=
  d.temp

/-- The `BatteryLevel` `onGet` value (`plugin.ts` line 69): `battery ?? 100`. -/
def batteryLevelGet (d : SampleData) : ℚ :=
  d.battery.getD 100

/-- The `StatusLowBattery` `onGet` value (`plugin.ts` lines 75-77):
`battery == null || battery > 10 ? NORMAL : LOW`. -/
def statusLowBatteryGet (d : SampleData) : ℕ :=
  match d.battery with
  | none => BATTERY_LEVEL_NORMAL
  | some battery =>
    if 10 < battery then BATTERY_LEVEL_NORMAL else BATTERY_LEVEL_LOW

/-- The `CurrentRelativeHumidity` `onGet` value (`plugin.ts` line 255):
`humidity ?? 0`. -/
def humidityGet (d : SampleData) : ℚ :=
  d.humidity.getD 0

/-- The `CarbonDioxideDetected` `onGet` value (`plugin.ts` lines 270-272):
`co2 == null || co2 < 1000 ? NORMAL : ABNORMAL`. -/
def co2DetectedGet (d : SampleData) : ℕ :=
  match d.co2 with
  | none => CO2_LEVELS_NORMAL
  | some co2 => if co2 < 1000 then CO2_LEVELS_NORMAL else CO2_LEVELS_ABNORMAL

/-- The `CarbonDioxideLevel` `onGet` value (`plugin.ts` line 278):
`co2 ?? 0`. -/
def co2LevelGet (d : SampleData) : ℚ :=
  d.co2.getD 0

/-- The Eve `Air Pressure` `onGet` value (`plugin.ts` line 299):
`pressure ?? 1012`. -/
def pressureGet (d : SampleData) : ℚ :=
  d.pressure.getD 1012

/-- The `Mold` `onGet` value (`plugin.ts` line 180): `mold ?? 0`. -/
def moldGet (d : SampleData) : ℚ :=
  d.mold.getD 0

/-- The `PM2_5Density` `onGet` value (`plugin.ts` line 190): `pm25 ?? 0`. -/
def pm25Get (d : SampleData) : ℚ :=
  d.pm25.getD 0

/-- The `Radon (24h avg)` `onGet` value (`plugin.ts` line 204):
`radonShortTermAvg ?? 0`. -/
def radonGet (d : SampleData) : ℚ :=
  d.radonShortTermAvg.getD 0

/-- Freshness check shared by the per-quantity `StatusActive` getters:
`field != null && time != null && now - time < 2 * 60 * 60`, with `now` the
current clock in seconds (`Date.now() / 1000` in the source). -/
def fieldStatusActive (field : Option ℚ) (time : Option ℚ) (now : ℚ) : Bool :=
  match field, time with
  | some _, some t => decide (now - t < 2 * 60 * 60)
  | _, _ => false

/-- The temperature `StatusActive` `onGet` value (`plugin.ts` lines
243-247). -/
def tempStatusActive (d : SampleData) (now : ℚ) : Bool :=
  fieldStatusActive d.temp d.time now

/-- The humidity `StatusActive` `onGet` value (`plugin.ts` lines 258-262). -/
def humidityStatusActive (d : SampleData) (now : ℚ) : Bool :=
  fieldStatusActive d.humidity d.time now

/-- The CO2 `StatusActive` `onGet` value (`plugin.ts` lines 281-285). -/
def co2StatusActive (d : SampleData) (now : ℚ) : Bool :=
  fieldStatusActive d.co2 d.time now

/-- The air-pressure `StatusActive` `onGet` value (`plugin.ts` lines
302-306). -/
def pressureStatusActive (d : SampleData) (now : ℚ) : Bool :=
  fieldStatusActive d.pressure d.time now

/-- The air-quality service's `StatusActive` `onGet` value (`plugin.ts`
lines 228-232): `time != null && now - time < 2 * 60 * 60`, with no
per-factor field condition. -/
def airQualityStatusActive (d : SampleData) (now : ℚ) : Bool :=
  match d.time with
  | some t => decide (now - t < 2 * 60 * 60)
  | none => false

/-- The mutable cache owned by the accessory: the latest sample snapshot
(initially `{ data: {} }`) and the timestamp of the last successful fetch
in milliseconds (initially 0). -/
structure CacheState where
  latestSamples : SampleData
  latestSamplesTimestamp : ℤ
deriving Repr, DecidableEq

/-- The initial cache state set up at construction. -/
def initialCache : CacheState :=
  { latestSamples := emptyData, latestSamplesTimestamp := 0 }

/-- One run of the body of `getLatestSamples` (`plugin.ts` lines 331-352),
as executed under the mutex.  `now` is `Date.now()` at the TTL check and
`nowAfter` is `Date.now()` after the fetch resolves; `fetch` is the result
of the external `airthingsApi.getLatestSamples(serialNumber)` call (an
`Except`, because the source catches its rejection).  Returns the new
cache state together with `some sn` when the external fetch was invoked
with serial number `sn`, and `none` when no fetch was made.  On a fetch
error the state is returned unchanged and the error is consumed (the
source logs it and does not rethrow). -/
def getLatestSamplesStep (serialNumber : Option String) (now nowAfter : ℤ)
    (fetch : Except String SampleData) (st : CacheState) :
    CacheState × Option String :=
  match serialNumber with
  | none => (st, none)
  | some sn =>
    if 300 * 1000 < now - st.latestSamplesTimestamp then
      match fetch with
      | .ok s =>
        ({ latestSamples := s, latestSamplesTimestamp := nowAfter }, some sn)
      | .error _ => (st, some sn)
    else (st, none)

/-- The plugin's configuration object (`AirthingsPluginConfig`): the three
optional fields read by the plugin. -/
structure AirthingsPluginConfig where
  clientId : Option String
  clientSecret : Option String
  serialNumber : Option String
deriving Repr, DecidableEq

/-- The constructor's normalisation of the configuration (`plugin.ts`
lines 40-43): a missing `serialNumber` is logged and replaced by the
placeholder `"0000000000"`; the (possibly mutated) object is then stored
as `this.airthingsConfig`. -/
def constructorConfig (config : AirthingsPluginConfig) :
    AirthingsPluginConfig :=
  match config.serialNumber with
  | none => { config with serialNumber := some "0000000000" }
  | some _ => config

end Airthings

namespace Airthings

theorem humidityAQ_eq (d : SampleData) :
    humidityAQ d AQ_UNKNOWN = factorContrib d.humidity humidityLevel := by
  cases h : d.humidity with
  | none => simp [humidityAQ, factorContrib, h]
  | some v =>
    simp only [humidityAQ, factorContrib, h]
    rfl

theorem max_shuffle (a b c d e f : ℕ) :
    max (max (max (max (max a b) c) d) e) f =
      max a (max b (max c (max d (max e f)))) := by
  simp [Nat.max_assoc]

theorem co2AQ_eq (d : SampleData) (aq : ℕ) :
    co2AQ d aq = max aq (factorContrib d.co2 co2Level) := by
  cases h : d.co2 with
  | none => simp [co2AQ, factorContrib, h, AQ_UNKNOWN]
  | some c =>
    simp only [co2AQ, factorContrib, h, co2Level]
    split_ifs <;> rfl

theorem moldAQ_eq (d : SampleData) (aq : ℕ) :
    moldAQ d aq = max aq (factorContrib d.mold moldLevel) := by
  cases h : d.mold with
  | none => simp [moldAQ, factorContrib, h, AQ_UNKNOWN]
  | some c =>
    simp only [moldAQ, factorContrib, h, moldLevel]
    split_ifs <;> rfl

theorem pm25AQ_eq (d : SampleData) (aq : ℕ) :
    pm25AQ d aq = max aq (factorContrib d.pm25 pm25Level) := by
  cases h : d.pm25 with
  | none => simp [pm25AQ, factorContrib, h, AQ_UNKNOWN]
  | some c =>
    simp only [pm25AQ, factorContrib, h, pm25Level]
    split_ifs <;> rfl

theorem radonAQ_eq (d : SampleData) (aq : ℕ) :
    radonAQ d aq = max aq (factorContrib d.radonShortTermAvg radonLevel) := by
  cases h : d.radonShortTermAvg with
  | none => simp [radonAQ, factorContrib, h, AQ_UNKNOWN]
  | some c =>
    simp only [radonAQ, factorContrib, h, radonLevel]
    split_ifs <;> rfl

theorem vocAQ_eq (d : SampleData) (aq : ℕ) :
    vocAQ d aq = max aq (factorContrib d.voc vocLevel) := by
  cases h : d.voc with
  | none => simp [vocAQ, factorContrib, h, AQ_UNKNOWN]
  | some c =>
    simp only [vocAQ, factorContrib, h, vocLevel]
    split_ifs <;> rfl

/-- The sequential worst-case aggregation of the source equals the pure
maximum of the per-factor levels. -/
theorem classify_eq_spec (d : SampleData) : classify d = classifySpec d := by
  rw [classify, vocAQ_eq, radonAQ_eq, pm25AQ_eq, moldAQ_eq, co2AQ_eq,
    humidityAQ_eq, max_shuffle, classifySpec]

example : classify { co2 := some 1000 } = AQ_POOR := by decide
example : classify { co2 := some 800 } = AQ_FAIR := by decide
example : classify { co2 := some 799 } = AQ_EXCELLENT := by decide
example : classify { humidity := some 24 } = AQ_POOR := by decide
example : classify { humidity := some 70 } = AQ_POOR := by decide
example : classify { humidity := some 50 } = AQ_EXCELLENT := by decide
example : classify emptyData = AQ_UNKNOWN := by decide
example : vocDensity emptyData = 0 := by norm_num [vocDensity, emptyData]
example : vocDensity { voc := some 100 } = 100 * (78 / (22.41 * (298 / 273))) := by
  norm_num [vocDensity]

/-- Claim C1: the air-quality classification returns the maximum severity
over all present factors, each factor's level taken from its threshold
table (`classifySpec` spells out exactly those tables and the pure
maximum); an absent factor contributes nothing, and with no factor present
the result is UNKNOWN. -/
theorem C1_classify_is_max_of_levels :
    (∀ d : SampleData, classify d = classifySpec d) ∧
    classify emptyData = AQ_UNKNOWN :=
  ⟨classify_eq_spec, by decide⟩

/-- Claim C6: the classification is monotonic in each factor independently
(replacing a factor's value by one of equal or greater severity per its
threshold table never decreases the result), and it equals the pure
maximum of the per-factor levels, so evaluation order cannot affect it. -/
theorem C6_classify_monotone_order_independent :
    (∀ (d : SampleData) (f : Factor) (v v' : ℚ),
      factorLevel f v ≤ factorLevel f v' →
      classify (setFactor d f v) ≤ classify (setFactor d f v')) ∧
    (∀ d : SampleData, classify d = classifySpec d) := by
  refine ⟨?_, classify_eq_spec⟩
  intro d f v v' h
  rw [classify_eq_spec, classify_eq_spec]
  cases f with
  | humidity =>
    simp only [classifySpec, setFactor, factorContrib, factorLevel] at h ⊢
    exact max_le_max h le_rfl
  | co2 =>
    simp only [classifySpec, setFactor, factorContrib, factorLevel] at h ⊢
    exact max_le_max le_rfl (max_le_max h le_rfl)
  | mold =>
    simp only [classifySpec, setFactor, factorContrib, factorLevel] at h ⊢
    exact max_le_max le_rfl (max_le_max le_rfl (max_le_max h le_rfl))
  | pm25 =>
    simp only [classifySpec, setFactor, factorContrib, factorLevel] at h ⊢
    exact max_le_max le_rfl
      (max_le_max le_rfl (max_le_max le_rfl (max_le_max h le_rfl)))
  | radon =>
    simp only [classifySpec, setFactor, factorContrib, factorLevel] at h ⊢
    exact max_le_max le_rfl (max_le_max le_rfl
      (max_le_max le_rfl (max_le_max le_rfl (max_le_max h le_rfl))))
  | voc =>
    simp only [classifySpec, setFactor, factorContrib, factorLevel] at h ⊢
    exact max_le_max le_rfl (max_le_max le_rfl
      (max_le_max le_rfl (max_le_max le_rfl (max_le_max le_rfl h))))

/-- Witness for C6 at a concrete input: raising co2 from 100 (EXCELLENT)
to 1000 (POOR) does not decrease the classification. -/
theorem C6_witness :
    factorLevel Factor.co2 100 ≤ factorLevel Factor.co2 1000 ∧
    classify (setFactor emptyData Factor.co2 100) ≤
      classify (setFactor emptyData Factor.co2 1000) :=
  ⟨by decide,
    C6_classify_monotone_order_independent.1 emptyData Factor.co2 100 1000
      (by decide)⟩

/-- Counterexample for claim C3: `vocDensity({voc: 100})` does not equal
`100 * (78 / (22.41 * 1 * 1))` (≈ 348.06), because the absent temperature
falls back to 25 °C, which makes the temperature correction factor
`(25 + 273) / 273 = 298 / 273`, not 1. -/
theorem C3_counterexample :
    vocDensity { voc := some 100 } ≠ 100 * (78 / (22.41 * 1 * 1)) := by
  norm_num [vocDensity]

/-- Claim C3 (amended): `vocDensity({})` returns 0, and
`vocDensity({voc: 100})` (no temp/pressure) returns
`100 * (78 / (22.41 * ((25 + 273) / 273) * (1013 / 1013)))` ≈ 318.86,
the fallbacks being 25 °C and 1013 mBar. -/
theorem C3_vocDensity_examples :
    vocDensity emptyData = 0 ∧
    vocDensity { voc := some 100 } =
      100 * (78 / (22.41 * ((25 + 273) / 273) * (1013 / 1013))) := by
  constructor <;> norm_num [vocDensity, emptyData]

/-- Claim C4: with voc present, the VOC density getter returns
`voc * (78 / (22.41 * ((t + 273) / 273) * (1013 / p)))` with `t` the
sample's temperature or 25 when absent and `p` its pressure or 1013 when
absent; with voc absent it returns 0. -/
theorem C4_vocDensity_formula (d : SampleData) :
    (∀ v, d.voc = some v →
      vocDensity d =
        v * (78 / (22.41 * ((d.temp.getD 25 + 273) / 273) *
          (1013 / d.pressure.getD 1013)))) ∧
    (d.voc = none → vocDensity d = 0) := by
  constructor
  · intro v hv
    simp [vocDensity, hv]
  · intro hv
    simp [vocDensity, hv]

/-- Witness for C4 at a concrete input: a sample with voc 100, temperature
20 and pressure 1000. -/
theorem C4_witness :
    vocDensity { voc := some 100, temp := some 20, pressure := some 1000 } =
      100 * (78 / (22.41 * ((20 + 273) / 273) * (1013 / 1000))) := by
  have h := (C4_vocDensity_formula
    { voc := some 100, temp := some 20, pressure := some 1000 }).1 100 rfl
  simpa using h

/-- Counterexample for claim C2: with the last fetch exactly 300 seconds
ago (elapsed is at least the TTL), the code performs no fetch, because the
source compares with a strict `>` in milliseconds
(`Date.now() - timestamp > 300 * 1000`). -/
theorem C2_counterexample :
    (300 : ℤ) * 1000 ≤ 300000 - initialCache.latestSamplesTimestamp ∧
    (getLatestSamplesStep (some "0000000000") 300000 300000
        (Except.ok emptyData) initialCache).2 = none := by
  constructor
  · decide
  · rfl

/-- Claim C2 (amended): with a configured serial number, the external
fetch is invoked if and only if the elapsed time since the last successful
fetch STRICTLY exceeds 300 seconds; when the last fetch was 10 seconds ago
no fetch occurs and the cached snapshot and timestamp are unchanged, and
when it was 301 seconds ago the fetch is invoked. -/
theorem C2_ttl_gate (sn : String) (now nowAfter : ℤ)
    (fetch : Except String SampleData) (st : CacheState) :
    ((getLatestSamplesStep (some sn) now nowAfter fetch st).2 = some sn ↔
      300 * 1000 < now - st.latestSamplesTimestamp) ∧
    (now - st.latestSamplesTimestamp = 10 * 1000 →
      getLatestSamplesStep (some sn) now nowAfter fetch st = (st, none)) ∧
    (now - st.latestSamplesTimestamp = 301 * 1000 →
      (getLatestSamplesStep (some sn) now nowAfter fetch st).2 = some sn) := by
  refine ⟨?_, ?_, ?_⟩
  · simp only [getLatestSamplesStep]
    split_ifs with h
    · cases fetch <;> simp <;> omega
    · simp
      omega
  · intro h
    simp only [getLatestSamplesStep]
    rw [if_neg (by omega)]
  · intro h
    simp only [getLatestSamplesStep]
    rw [if_pos (by omega)]
    cases fetch <;> rfl

/-- Witness for C2 at a concrete input: last fetch at time 0, call at
301000 ms, fetch invoked. -/
theorem C2_witness :
    (getLatestSamplesStep (some "0000000000") 301000 301000
        (Except.ok emptyData) initialCache).2 = some "0000000000" :=
  (C2_ttl_gate "0000000000" 301000 301000 (Except.ok emptyData)
    initialCache).2.2 (by decide)

/-- Claim C5: when the external fetch rejects, `getLatestSamples` leaves
the cached snapshot and its fetch timestamp exactly as they were, for
every cache state.  The error is consumed inside the step (the model's
result type has no error channel, mirroring the source's catch block), so
it is never propagated to the awaiting getter. -/
theorem C5_fetch_error_preserves_cache (serialNumber : Option String)
    (now nowAfter : ℤ) (e : String) (st : CacheState) :
    (getLatestSamplesStep serialNumber now nowAfter (Except.error e) st).1 =
      st := by
  cases serialNumber with
  | none => rfl
  | some sn =>
    simp only [getLatestSamplesStep]
    split_ifs <;> rfl

theorem fieldStatusActive_iff (field time : Option ℚ) (now : ℚ) :
    fieldStatusActive field time now = true ↔
      field.isSome = true ∧ ∃ t, time = some t ∧ now - t < 7200 := by
  have h72 : (2 : ℚ) * 60 * 60 = 7200 := by norm_num
  cases field <;> cases time <;> simp [fieldStatusActive, h72]

theorem fieldStatusActive_stale (field : Option ℚ) (t now : ℚ)
    (h : 7200 ≤ now - t) : fieldStatusActive field (some t) now = false := by
  cases field with
  | none => rfl
  | some v =>
    simp only [fieldStatusActive, decide_eq_false_iff_not]
    intro hlt
    norm_num at hlt
    linarith

theorem airQualityStatusActive_eq (d : SampleData) (now : ℚ) :
    airQualityStatusActive d now = fieldStatusActive (some 0) d.time now := by
  cases h : d.time <;> simp [airQualityStatusActive, fieldStatusActive, h]

/-- Claim C7: each physical quantity's `StatusActive` getter returns true
iff its own field is present, the time field is present and
`now - time < 7200`; it returns false whenever the time field is absent,
and false once `now - time ≥ 7200`; the air-quality `StatusActive` is
gated only on the time field. -/
theorem C7_status_active (d : SampleData) (now : ℚ) :
    (tempStatusActive d now = true ↔
      d.temp.isSome = true ∧ ∃ t, d.time = some t ∧ now - t < 7200) ∧
    (humidityStatusActive d now = true ↔
      d.humidity.isSome = true ∧ ∃ t, d.time = some t ∧ now - t < 7200) ∧
    (co2StatusActive d now = true ↔
      d.co2.isSome = true ∧ ∃ t, d.time = some t ∧ now - t < 7200) ∧
    (pressureStatusActive d now = true ↔
      d.pressure.isSome = true ∧ ∃ t, d.time = some t ∧ now - t < 7200) ∧
    (airQualityStatusActive d now = true ↔
      ∃ t, d.time = some t ∧ now - t < 7200) ∧
    (d.time = none →
      tempStatusActive d now = false ∧ humidityStatusActive d now = false ∧
      co2StatusActive d now = false ∧ pressureStatusActive d now = false ∧
      airQualityStatusActive d now = false) ∧
    (∀ t, d.time = some t → 7200 ≤ now - t →
      tempStatusActive d now = false ∧ humidityStatusActive d now = false ∧
      co2StatusActive d now = false ∧ pressureStatusActive d now = false ∧
      airQualityStatusActive d now = false) := by
  refine ⟨fieldStatusActive_iff _ _ _, fieldStatusActive_iff _ _ _,
    fieldStatusActive_iff _ _ _, fieldStatusActive_iff _ _ _, ?_, ?_, ?_⟩
  · rw [airQualityStatusActive_eq, fieldStatusActive_iff]
    simp
  · intro h
    refine ⟨?_, ?_, ?_, ?_, ?_⟩ <;>
      simp [tempStatusActive, humidityStatusActive, co2StatusActive,
        pressureStatusActive, airQualityStatusActive, fieldStatusActive, h]
  · intro t ht hstale
    rw [tempStatusActive, humidityStatusActive, co2StatusActive,
      pressureStatusActive, airQualityStatusActive_eq, ht]
    refine ⟨?_, ?_, ?_, ?_, ?_⟩ <;>
      exact fieldStatusActive_stale _ t now hstale

/-- Witness for C7 at a concrete input: a sample with temperature and a
fresh timestamp is active, and one whose timestamp is 7200 seconds old is
not. -/
theorem C7_witness :
    tempStatusActive { temp := some 20, time := some 0 } 100 = true ∧
    tempStatusActive { temp := some 20, time := some 0 } 7200 = false :=
  ⟨(C7_status_active { temp := some 20, time := some 0 } 100).1.mpr
      ⟨rfl, 0, rfl, by norm_num⟩,
    ((C7_status_active { temp := some 20, time := some 0 } 7200).2.2.2.2.2.2
      0 rfl (by norm_num)).1⟩

/-- Claim C8: each getter returns its documented default when its backing
field is absent (battery 100, humidity 0, co2 level 0, air pressure 1012,
mold 0, radon 0, VOC density 0, temperature the null sentinel), the
low-battery flag reads NORMAL exactly when battery is absent or greater
than 10, and the co2-detected flag reads NORMAL exactly when co2 is absent
or less than 1000. -/
theorem C8_defaults (d : SampleData) :
    (d.battery = none → batteryLevelGet d = 100) ∧
    (d.humidity = none → humidityGet d = 0) ∧
    (d.co2 = none → co2LevelGet d = 0) ∧
    (d.pressure = none → pressureGet d = 1012) ∧
    (d.mold = none → moldGet d = 0) ∧
    (d.radonShortTermAvg = none → radonGet d = 0) ∧
    (d.voc = none → vocDensity d = 0) ∧
    (d.temp = none → temperatureGet d = none) ∧
    (statusLowBatteryGet d = BATTERY_LEVEL_NORMAL ↔
      d.battery = none ∨ ∃ b, d.battery = some b ∧ 10 < b) ∧
    (co2DetectedGet d = CO2_LEVELS_NORMAL ↔
      d.co2 = none ∨ ∃ c, d.co2 = some c ∧ c < 1000) := by
  refine ⟨fun h => by simp [batteryLevelGet, h],
    fun h => by simp [humidityGet, h],
    fun h => by simp [co2LevelGet, h],
    fun h => by simp [pressureGet, h],
    fun h => by simp [moldGet, h],
    fun h => by simp [radonGet, h],
    fun h => by simp [vocDensity, h],
    fun h => by simp [temperatureGet, h], ?_, ?_⟩
  · cases hb : d.battery with
    | none => simp [statusLowBatteryGet, hb]
    | some b =>
      simp only [statusLowBatteryGet, hb]
      split_ifs with h10
      · simp [BATTERY_LEVEL_NORMAL, h10]
      · simp [BATTERY_LEVEL_NORMAL, BATTERY_LEVEL_LOW, h10]
  · cases hc : d.co2 with
    | none => simp [co2DetectedGet, hc]
    | some c =>
      simp only [co2DetectedGet, hc]
      split_ifs with h1000
      · simp [CO2_LEVELS_NORMAL, h1000]
      · simp [CO2_LEVELS_NORMAL, CO2_LEVELS_ABNORMAL, h1000]

/-- Witness for C8 at the empty sample: every default is served and both
flags read NORMAL. -/
theorem C8_witness :
    batteryLevelGet emptyData = 100 ∧ humidityGet emptyData = 0 ∧
    co2LevelGet emptyData = 0 ∧ pressureGet emptyData = 1012 ∧
    moldGet emptyData = 0 ∧ radonGet emptyData = 0 ∧
    vocDensity emptyData = 0 ∧ temperatureGet emptyData = none ∧
    statusLowBatteryGet emptyData = BATTERY_LEVEL_NORMAL ∧
    co2DetectedGet emptyData = CO2_LEVELS_NORMAL :=
  ⟨(C8_defaults emptyData).1 rfl, (C8_defaults emptyData).2.1 rfl,
    (C8_defaults emptyData).2.2.1 rfl, (C8_defaults emptyData).2.2.2.1 rfl,
    (C8_defaults emptyData).2.2.2.2.1 rfl,
    (C8_defaults emptyData).2.2.2.2.2.1 rfl,
    (C8_defaults emptyData).2.2.2.2.2.2.1 rfl,
    (C8_defaults emptyData).2.2.2.2.2.2.2.1 rfl,
    (C8_defaults emptyData).2.2.2.2.2.2.2.2.1.mpr (Or.inl rfl),
    (C8_defaults emptyData).2.2.2.2.2.2.2.2.2.mpr (Or.inl rfl)⟩

/-- Claim C10: after the constructor runs the stored serial number is
never `none` (a missing one is replaced by the placeholder "0000000000"),
so the early-return branch of `getLatestSamples` that checks for a null
serial number is unreachable; an accessory with no configured serial
number still invokes the external fetch with the placeholder once the TTL
has expired. -/
theorem C10_serial_placeholder (config : AirthingsPluginConfig) :
    (∃ sn, (constructorConfig config).serialNumber = some sn) ∧
    (config.serialNumber = none →
      (constructorConfig config).serialNumber = some "0000000000") ∧
    (∀ (now nowAfter : ℤ) (fetch : Except String SampleData)
      (st : CacheState),
      config.serialNumber = none →
      300 * 1000 < now - st.latestSamplesTimestamp →
      (getLatestSamplesStep (constructorConfig config).serialNumber now
          nowAfter fetch st).2 = some "0000000000") := by
  cases h : config.serialNumber with
  | none =>
    refine ⟨⟨"0000000000", by simp [constructorConfig, h]⟩,
      fun _ => by simp [constructorConfig, h], ?_⟩
    intro now nowAfter fetch st _ httl
    simp only [constructorConfig, h, getLatestSamplesStep]
    rw [if_pos httl]
    cases fetch <;> rfl
  | some sn =>
    refine ⟨⟨sn, by simp [constructorConfig, h]⟩, ?_, ?_⟩
    · intro hnone
      exact Option.noConfusion hnone
    · intro now nowAfter fetch st hnone
      exact Option.noConfusion hnone

/-- Witness for C10 at a concrete input: a fully unconfigured accessory,
TTL expired, fetch invoked with the placeholder serial number. -/
theorem C10_witness :
    (getLatestSamplesStep
        (constructorConfig ⟨none, none, none⟩).serialNumber 301000 301000
        (Except.ok emptyData) initialCache).2 = some "0000000000" :=
  (C10_serial_placeholder ⟨none, none, none⟩).2.2 301000 301000
    (Except.ok emptyData) initialCache rfl (by decide)

end Airthings
